import Mathlib

/-!
Verification of the rifts-protocol vault program (src/src/lib.rs).

The development shallowly embeds the accounting core of the program:
machine integers are modelled as `Nat` with explicit checked operations
(matching Rust's `checked_add` / `checked_sub` / `checked_mul` /
`checked_div` on `u64`/`u128`, and `i64` timestamps as `Int`), fallible
code returns `Except Err`, and token-account balances observed through
the runtime are passed in as explicit environment records.  Each
environment field corresponds to one concrete balance read in the
source; fields the source never reads are still present so that claims
about "actually credited" amounts can be stated.
-/

namespace Rifts

/-- Error codes of the program (subset used by the embedded operations),
from the `ErrorCode` enum in src/src/lib.rs. -/
inductive Err where
  | RiftClosed
  | InvalidAmount
  | AmountTooLarge
  | MathOverflow
  | SlippageExceeded
  | ReentrancyDetected
  | InsufficientFunds
  | InsufficientFees
  | ExcessiveTransferFee
  | VaultNotEmpty
  | FeesVaultNotEmpty
  | WithheldVaultNotEmpty
  | OracleUpdateTooFrequent
  | OraclePriceChangeTooLarge
  | OracleCumulativeDriftTooLarge
  | InvalidOraclePrice
  | OraclePriceTooLarge
  | InvalidConfidence
  | InvalidTimestamp
  | OraclePriceStale
  | InvalidBackingRatio
  | BackingRatioTooStale
  | RebalanceTooSoon
deriving DecidableEq, Repr

/-- Decidable equality for `Except`, so that concrete runs of the
embedded operations can be checked by `decide`. -/
instance exceptDecEq {ε α : Type} [DecidableEq ε] [DecidableEq α] :
    DecidableEq (Except ε α) := fun x y =>
  match x, y with
  | .ok a, .ok b =>
    if h : a = b then .isTrue (by rw [h]) else .isFalse (by simp [h])
  | .error a, .error b =>
    if h : a = b then .isTrue (by rw [h]) else .isFalse (by simp [h])
  | .ok _, .error _ => .isFalse (by simp)
  | .error _, .ok _ => .isFalse (by simp)

/-- Largest value of a Rust `u64`. -/
def U64MAX : Nat := 2 ^ 64 - 1

/-- Largest value of a Rust `u128`. -/
def U128MAX : Nat := 2 ^ 128 - 1

/-- Rust `u64::checked_add` followed by `.ok_or(MathOverflow)`. -/
def chAdd (a b : Nat) : Except Err Nat :=
  if a + b ≤ U64MAX then .ok (a + b) else .error .MathOverflow

/-- Rust `u64::checked_sub` followed by `.ok_or(MathOverflow)`. -/
def chSub (a b : Nat) : Except Err Nat :=
  if b ≤ a then .ok (a - b) else .error .MathOverflow

/-- Rust `u64::checked_mul` followed by `.ok_or(MathOverflow)`. -/
def chMul (a b : Nat) : Except Err Nat :=
  if a * b ≤ U64MAX then .ok (a * b) else .error .MathOverflow

/-- Rust `u64::checked_div` followed by `.ok_or(MathOverflow)`;
`checked_div` fails only on division by zero. -/
def chDiv (a b : Nat) : Except Err Nat :=
  if b = 0 then .error .MathOverflow else .ok (a / b)

/-- Rust `u128::checked_add` followed by `.ok_or(MathOverflow)`. -/
def chAdd128 (a b : Nat) : Except Err Nat :=
  if a + b ≤ U128MAX then .ok (a + b) else .error .MathOverflow

/-- Rust `u128::checked_mul` followed by `.ok_or(MathOverflow)`. -/
def chMul128 (a b : Nat) : Except Err Nat :=
  if a * b ≤ U128MAX then .ok (a * b) else .error .MathOverflow

/-- Rust `u128::checked_div` followed by `.ok_or(MathOverflow)`. -/
def chDiv128 (a b : Nat) : Except Err Nat :=
  if b = 0 then .error .MathOverflow else .ok (a / b)

/-- Rust `i64::checked_sub` followed by `.ok_or(MathOverflow)`:
fails only when the mathematical difference leaves the `i64` range. -/
def i64chSub (a b : Int) : Except Err Int :=
  if -(2 ^ 63) ≤ a - b ∧ a - b < 2 ^ 63 then .ok (a - b) else .error .MathOverflow

/-- Rust `u64::try_from(u128)` followed by `.map_err(MathOverflow)`. -/
def u64try (a : Nat) : Except Err Nat :=
  if a ≤ U64MAX then .ok a else .error .MathOverflow

/-- One sample of the rolling oracle window (`PriceData` in the source). -/
structure PriceData where
  price : Nat
  confidence : Nat
  timestamp : Int
deriving DecidableEq, Repr

/-- The on-chain `Rift` account state, restricted to the fields the
embedded operations read or write.  Pubkey-valued vault pointers are
modelled by their only observable property in the embedded code: whether
they differ from the system-program sentinel (initialized or not). -/
structure Rift where
  is_closed : Bool
  wrap_fee_bps : Nat
  unwrap_fee_bps : Nat
  vault_initialized : Bool
  fees_vault_initialized : Bool
  withheld_vault_initialized : Bool
  total_underlying_wrapped : Nat
  total_rift_minted : Nat
  total_burned : Nat
  total_fees_collected : Nat
  total_volume_24h : Nat
  reentrancy_guard : Bool
  reentrancy_guard_slot : Nat
  oracle_prices : List PriceData
  price_index : Nat
  backing_ratio : Nat
  last_rebalance : Int
  last_oracle_update : Int
  oracle_update_interval : Int
  max_rebalance_interval : Int
  rebalance_count : Nat
  arbitrage_opportunity_bps : Nat
  arbitrage_threshold_bps : Nat
  price_deviation : Nat
  last_manual_oracle_update : Int
  manual_oracle_base_price : Nat
  manual_oracle_drift_window_start : Int
deriving DecidableEq, Repr

/-- Balances observed by `wrap_tokens` through the runtime.
`vaultBefore`/`vaultAfter` are the vault balance before the inbound
transfer and after `vault.reload()`; `feesVaultBefore`/`feesVaultAfter`
are the fee-vault balance around the fee transfer (read only when a fee
transfer actually happens). -/
structure WrapEnv where
  vaultBefore : Nat
  vaultAfter : Nat
  feesVaultBefore : Nat
  feesVaultAfter : Nat
deriving DecidableEq, Repr

/-- Body of `wrap_tokens` (src/src/lib.rs lines 1891-2122), the part that
runs inside the reentrancy guard.  Token-account ownership and mint
checks are elided: they constrain account metadata that is outside the
accounting state.  Returns the updated rift together with the minted
amount. -/
def wrapBody (env : WrapEnv) (amount min_rift_out : Nat) (r : Rift) :
    Except Err (Rift × Nat) :=
  if r.is_closed then .error .RiftClosed
  else if ¬ 0 < amount then .error .InvalidAmount
  else
    let fee_multiplier := r.wrap_fee_bps
    if ¬ amount ≤ U64MAX / max fee_multiplier 1 then .error .AmountTooLarge
    else
      -- inbound transfer of `amount` happens here (external CPI)
      match chSub env.vaultAfter env.vaultBefore with
      | .error e => .error e
      | .ok actual_received =>
        match chMul actual_received fee_multiplier with
        | .error e => .error e
        | .ok m =>
          match chDiv m 10000 with
          | .error e => .error e
          | .ok wrap_fee =>
            match chSub actual_received wrap_fee with
            | .error e => .error e
            | .ok amount_after_fee =>
              if ¬ amount_after_fee ≥ min_rift_out then .error .SlippageExceeded
              else
                -- fee transfer to fees_vault (external CPI) with measured credit,
                -- only when a fee is due and the fees vault is initialized
                let credited : Except Err Nat :=
                  if 0 < wrap_fee ∧ r.fees_vault_initialized then
                    chSub env.feesVaultAfter env.feesVaultBefore
                  else if 0 < wrap_fee then .ok wrap_fee
                  else .ok 0
                match credited with
                | .error e => .error e
                | .ok actual_fee_credited =>
                  -- mint of `amount_after_fee` happens here (external CPI)
                  match chAdd r.total_underlying_wrapped amount_after_fee with
                  | .error e => .error e
                  | .ok tuw =>
                    match chAdd r.total_rift_minted amount_after_fee with
                    | .error e => .error e
                    | .ok trm =>
                      let tfc : Except Err Nat :=
                        if 0 < actual_fee_credited then
                          chAdd r.total_fees_collected actual_fee_credited
                        else .ok r.total_fees_collected
                      match tfc with
                      | .error e => .error e
                      | .ok tfcv =>
                        .ok ({ r with
                          total_underlying_wrapped := tuw
                          total_rift_minted := trm
                          total_fees_collected := tfcv }, amount_after_fee)

/-- Balances observed by `unwrap_from_vault` through the runtime.
`vaultBalanceEntry` is the vault balance cached when the accounts were
deserialized at entry: the source reads `ctx.accounts.vault.amount` both
for the pre-burn sufficiency check (line 2250) and as
`vault_balance_before` (line 2318) without any `reload()` in between, so
both reads see the entry-time value even if a fee transfer CPI has
happened.  `vaultAfter` is the balance after `vault.reload()` following
the user-leg transfer.  `userBefore`/`userAfter` are the manually parsed
destination balances.  `feesVaultBefore`/`feesVaultAfter` record the
real credit to the fee vault: the source never reads them on unwrap. -/
structure UnwrapEnv where
  vaultBalanceEntry : Nat
  vaultAfter : Nat
  userBefore : Nat
  userAfter : Nat
  feesVaultBefore : Nat
  feesVaultAfter : Nat
deriving DecidableEq, Repr

/-- Body of `unwrap_from_vault` (src/src/lib.rs lines 2158-2454), the
part inside the reentrancy guard.  Token-account validation is elided as
in `wrapBody`.  Returns the updated rift together with the measured
amount actually received by the caller. -/
def unwrapBody (env : UnwrapEnv) (rift_token_amount min_underlying_out : Nat)
    (r : Rift) : Except Err (Rift × Nat) :=
  if r.is_closed then .error .RiftClosed
  else if ¬ 0 < rift_token_amount then .error .InvalidAmount
  else
    let fee_multiplier := r.unwrap_fee_bps
    if ¬ rift_token_amount ≤ U64MAX / max fee_multiplier 1 then .error .AmountTooLarge
    else
      match chMul rift_token_amount fee_multiplier with
      | .error e => .error e
      | .ok m =>
        match chDiv m 10000 with
        | .error e => .error e
        | .ok unwrap_fee =>
          match chSub rift_token_amount unwrap_fee with
          | .error e => .error e
          | .ok amount_after_fee =>
            let vault_balance := env.vaultBalanceEntry
            if ¬ vault_balance ≥ amount_after_fee then .error .InsufficientFunds
            else
              -- burn of `rift_token_amount` happens here (external CPI, no fee)
              -- fee transfer of `unwrap_fee` to fees_vault happens here when
              -- 0 < unwrap_fee and the fees vault is initialized; its credited
              -- amount is NOT measured by the source
              let vault_balance_before := env.vaultBalanceEntry
              let user_balance_before := env.userBefore
              -- user-leg transfer of `amount_after_fee` happens here (external CPI)
              let vault_balance_after := env.vaultAfter
              match chSub vault_balance_before vault_balance_after with
              | .error e => .error e
              | .ok actual_sent =>
                let user_balance_after := env.userAfter
                match chSub user_balance_after user_balance_before with
                | .error e => .error e
                | .ok actual_received =>
                  if ¬ actual_sent ≥ amount_after_fee then .error .SlippageExceeded
                  else if ¬ actual_received ≥ min_underlying_out then .error .SlippageExceeded
                  else
                    match chSub r.total_underlying_wrapped actual_sent with
                    | .error e => .error e
                    | .ok tuw =>
                      match chSub r.total_rift_minted rift_token_amount with
                      | .error e => .error e
                      | .ok trm =>
                        match chAdd r.total_burned rift_token_amount with
                        | .error e => .error e
                        | .ok tb =>
                          match chAdd r.total_fees_collected unwrap_fee with
                          | .error e => .error e
                          | .ok tfc =>
                            match chAdd r.total_volume_24h amount_after_fee with
                            | .error e => .error e
                            | .ok tv =>
                              .ok ({ r with
                                total_underlying_wrapped := tuw
                                total_rift_minted := trm
                                total_burned := tb
                                total_fees_collected := tfc
                                total_volume_24h := tv }, actual_received)

/-- Balances observed by `distribute_fees_from_vault`.
`feesVaultBalance` is the fee-vault balance cached at entry (the source
reads `ctx.accounts.fees_vault.amount` at lines 3686 and 3721 with no
intervening CPI, so both reads agree); `feesVaultAfter` is the balance
after `reload()` following both outbound transfers.
`partnerReceived`/`treasuryReceived` record the real credits to the two
destination accounts: the source never reads them. -/
structure DistributeEnv where
  feesVaultBalance : Nat
  feesVaultAfter : Nat
  partnerReceived : Nat
  treasuryReceived : Nat
deriving DecidableEq, Repr

/-- `distribute_fees_from_vault` (src/src/lib.rs lines 3549-3804).
Account-identity and authorization checks are elided (they constrain
pubkeys outside the accounting state).  Returns the updated rift and the
partner/treasury split amounts handed to the two transfers. -/
def distribute_fees_from_vault (env : DistributeEnv) (amount : Nat) (r : Rift) :
    Except Err (Rift × Nat × Nat) :=
  if ¬ 0 < amount then .error .InvalidAmount
  else
    let fees_vault_balance := env.feesVaultBalance
    if ¬ amount ≤ fees_vault_balance then .error .InsufficientFees
    else
      match chDiv amount 2 with
      | .error e => .error e
      | .ok partner_amount =>
        match chSub amount partner_amount with
        | .error e => .error e
        | .ok treasury_amount =>
          let fees_vault_balance_before := env.feesVaultBalance
          -- transfer of `partner_amount` to the partner account and of
          -- `treasury_amount` to the treasury account happen here
          -- (external CPIs); then fees_vault.reload()
          let fees_vault_balance_after := env.feesVaultAfter
          match chSub fees_vault_balance_before fees_vault_balance_after with
          | .error e => .error e
          | .ok actual_sent =>
            match chMul amount 98 with
            | .error e => .error e
            | .ok m =>
              match chDiv m 100 with
              | .error e => .error e
              | .ok threshold =>
                if ¬ actual_sent ≥ threshold then .error .ExcessiveTransferFee
                else
                  match chSub r.total_fees_collected actual_sent with
                  | .error e => .error e
                  | .ok tfc =>
                    .ok ({ r with total_fees_collected := tfc },
                         partner_amount, treasury_amount)

/-- Raw balances of the three custody accounts as parsed by `close_rift`
from the account data (bytes 64..72), read only for initialized vaults. -/
structure CloseEnv where
  vault_balance : Nat
  fees_vault_balance : Nat
  withheld_vault_balance : Nat
deriving DecidableEq, Repr

/-- `close_rift` (src/src/lib.rs lines 2813-2922).  The creator-signature
check is elided.  Mirrors the source order: minted-supply check, backing
vault balance (if initialized), accounting counters, fees vault balance
(if initialized), withheld vault balance (if initialized). -/
def close_rift (env : CloseEnv) (r : Rift) : Except Err Unit :=
  if ¬ r.total_rift_minted = 0 then .error .VaultNotEmpty
  else if r.vault_initialized ∧ ¬ env.vault_balance = 0 then .error .VaultNotEmpty
  else if ¬ r.total_underlying_wrapped = 0 then .error .VaultNotEmpty
  else if ¬ r.total_fees_collected = 0 then .error .FeesVaultNotEmpty
  else if r.fees_vault_initialized ∧ ¬ env.fees_vault_balance = 0 then
    .error .FeesVaultNotEmpty
  else if r.withheld_vault_initialized ∧ ¬ env.withheld_vault_balance = 0 then
    .error .WithheldVaultNotEmpty
  else .ok ()

/-- Auto-expiry timeout of the reentrancy guard, in slots
(`REENTRANCY_TIMEOUT_SLOTS`, src/src/lib.rs line 69). -/
def REENTRANCY_TIMEOUT_SLOTS : Nat := 432000

/-- Run a guarded operation body after the guard has been acquired, then
unconditionally clear guard flag and guard slot (src/src/lib.rs lines
2124-2126 and the twins in unwrap/rebalance).  The first component is
the instruction result; the second is the in-memory rift state at the
moment the function returns.  On the error path only the two guard
fields of that state are meaningful: the runtime discards every other
mutation when the instruction errors. -/
def runClearedBody (body : Rift → Except Err (Rift × Nat)) (r1 : Rift) :
    Except Err (Rift × Nat) × Rift :=
  match body r1 with
  | .ok (r2, out) =>
    (.ok ({ r2 with reentrancy_guard := false, reentrancy_guard_slot := 0 }, out),
     { r2 with reentrancy_guard := false, reentrancy_guard_slot := 0 })
  | .error e =>
    (.error e, { r1 with reentrancy_guard := false, reentrancy_guard_slot := 0 })

/-- The reentrancy-guard wrapper shared verbatim by `wrap_tokens`,
`unwrap_from_vault` and `trigger_rebalance` (src/src/lib.rs lines
1866-1888, 2133-2155, 2764-2786): if the guard is set and younger than
the timeout, fail with `ReentrancyDetected`; if older, force-clear and
proceed; otherwise set guard and slot, run the body, and always clear
both fields before returning. -/
def guardedRun (body : Rift → Except Err (Rift × Nat)) (r : Rift)
    (current_slot : Nat) : Except Err (Rift × Nat) × Rift :=
  if r.reentrancy_guard then
    if current_slot > r.reentrancy_guard_slot + REENTRANCY_TIMEOUT_SLOTS then
      runClearedBody body
        { r with reentrancy_guard := true, reentrancy_guard_slot := current_slot }
    else (.error .ReentrancyDetected, r)
  else
    runClearedBody body
      { r with reentrancy_guard := true, reentrancy_guard_slot := current_slot }

/-- `wrap_tokens` entry point: reentrancy guard around `wrapBody`. -/
def wrap_tokens (env : WrapEnv) (amount min_rift_out : Nat) (r : Rift)
    (current_slot : Nat) : Except Err (Rift × Nat) × Rift :=
  guardedRun (wrapBody env amount min_rift_out) r current_slot

/-- `unwrap_from_vault` entry point: reentrancy guard around `unwrapBody`. -/
def unwrap_from_vault (env : UnwrapEnv) (rift_token_amount min_underlying_out : Nat)
    (r : Rift) (current_slot : Nat) : Except Err (Rift × Nat) × Rift :=
  guardedRun (unwrapBody env rift_token_amount min_underlying_out) r current_slot

/-- Freshness cutoff for oracle samples (`MAX_ORACLE_AGE`, line 5886). -/
def MAX_ORACLE_AGE : Int := 3600

/-- The sample scan of `get_average_oracle_price_with_options` (lines
5891-5915): accumulate `(total_price, count, stale_count)` over the
window, skipping samples with nonpositive timestamps, counting samples
older than `MAX_ORACLE_AGE` as stale, and summing the rest in `u128`. -/
def scanPrices (now : Int) : List PriceData → Nat × Nat × Nat →
    Except Err (Nat × Nat × Nat)
  | [], acc => .ok acc
  | pd :: rest, (total_price, count, stale_count) =>
    if pd.timestamp > 0 then
      match i64chSub now pd.timestamp with
      | .error e => .error e
      | .ok age =>
        if age > MAX_ORACLE_AGE then
          match chAdd stale_count 1 with
          | .error e => .error e
          | .ok sc => scanPrices now rest (total_price, count, sc)
        else
          match chAdd128 total_price pd.price with
          | .error e => .error e
          | .ok tp =>
            match chAdd count 1 with
            | .error e => .error e
            | .ok c => scanPrices now rest (tp, c, stale_count)
    else scanPrices now rest (total_price, count, stale_count)

/-- `Rift::get_average_oracle_price_with_options` (src/src/lib.rs lines
5880-5994).  `now` is `Clock::get()?.unix_timestamp`. -/
def get_average_oracle_price_with_options (r : Rift) (allow_stale_fallback : Bool)
    (now : Int) : Except Err Nat :=
  match scanPrices now r.oracle_prices (0, 0, 0) with
  | .error e => .error e
  | .ok (total_price, count, stale_count) =>
    if ¬ allow_stale_fallback ∧ count < 1 ∧ stale_count > 0 then
      .error .OraclePriceStale
    else if count > 0 then
      match chMul128 total_price 1000000 with
      | .error e => .error e
      | .ok scaled_total =>
        match chDiv128 scaled_total count with
        | .error e => .error e
        | .ok scaled_avg =>
          match chDiv128 scaled_avg 1000000 with
          | .error e => .error e
          | .ok avg_price =>
            match u64try avg_price with
            | .error e => .error e
            | .ok final_price =>
              if ¬ final_price > 0 then .error .InvalidOraclePrice
              else if ¬ final_price ≤ 1000000000000 then .error .OraclePriceTooLarge
              else .ok final_price
    else
      if ¬ r.backing_ratio > 0 then .error .InvalidBackingRatio
      else
        match i64chSub now r.last_rebalance with
        | .error e => .error e
        | .ok backing_ratio_age =>
          if ¬ allow_stale_fallback then
            if ¬ backing_ratio_age ≤ 86400 then .error .BackingRatioTooStale
            else .ok r.backing_ratio
          else
            if ¬ backing_ratio_age ≤ 604800 then .error .BackingRatioTooStale
            else .ok r.backing_ratio

/-- `Rift::get_average_oracle_price` (line 5876): normal mode. -/
def get_average_oracle_price (r : Rift) (now : Int) : Except Err Nat :=
  get_average_oracle_price_with_options r false now

/-- `Rift::add_price_data` (src/src/lib.rs lines 5766-5784): bound the
sample timestamp against the clock, write the sample at the cursor, and
advance the cursor modulo 10.  `now` is `Clock::get()?.unix_timestamp`. -/
def add_price_data (r : Rift) (price confidence : Nat) (timestamp now : Int) :
    Except Err Rift :=
  if ¬ timestamp ≤ now + 60 then .error .InvalidTimestamp
  else if ¬ timestamp ≥ now - 300 then .error .InvalidTimestamp
  else .ok { r with
    oracle_prices := r.oracle_prices.set r.price_index
      { price := price, confidence := confidence, timestamp := timestamp }
    price_index := (r.price_index + 1) % 10
    last_oracle_update := timestamp }

/-- `Rift::can_manual_rebalance` (lines 5822-5832).  `current_time` is the
caller-supplied clock value, `now` the runtime clock used for the skew
check. -/
def can_manual_rebalance (r : Rift) (current_time now : Int) : Except Err Bool :=
  if ¬ (current_time - now).natAbs ≤ 60 then .error .InvalidTimestamp
  else .ok (current_time - r.last_oracle_update > r.oracle_update_interval)

/-- `Rift::trigger_automatic_rebalance` (lines 5834-5873). -/
def trigger_automatic_rebalance (r : Rift) (current_time now : Int) :
    Except Err Rift :=
  if ¬ (current_time - now).natAbs ≤ 60 then .error .InvalidTimestamp
  else
    match get_average_oracle_price r now with
    | .error e => .error e
    | .ok avg_price =>
      if ¬ avg_price > 0 then .error .InvalidOraclePrice
      else if ¬ avg_price ≤ 1000000000000 then .error .OraclePriceTooLarge
      else
        -- source repeats the bounds check when assigning backing_ratio
        if avg_price > 0 ∧ avg_price ≤ 1000000000000 then
          match chAdd r.rebalance_count 1 with
          | .error e => .error e
          | .ok rc =>
            .ok { r with
              backing_ratio := avg_price
              last_rebalance := current_time
              rebalance_count := rc
              arbitrage_opportunity_bps := 0
              price_deviation := 0
              total_volume_24h := 0 }
        else .error .InvalidOraclePrice

/-- Body of `trigger_rebalance` (src/src/lib.rs lines 2789-2802), inside
the reentrancy guard; the entry point passes the same clock value as
both the caller time and the validation time. -/
def triggerRebalanceBody (now : Int) (r : Rift) : Except Err (Rift × Nat) :=
  match can_manual_rebalance r now now with
  | .error e => .error e
  | .ok can =>
    if ¬ can then .error .RebalanceTooSoon
    else
      match trigger_automatic_rebalance r now now with
      | .error e => .error e
      | .ok r2 => .ok (r2, 0)

/-- `trigger_rebalance` entry point: reentrancy guard around its body. -/
def trigger_rebalance (now : Int) (r : Rift) (current_slot : Nat) :
    Except Err (Rift × Nat) × Rift :=
  guardedRun (triggerRebalanceBody now) r current_slot

/-- The 10 percent price-change gate of `update_manual_oracle`
(src/src/lib.rs lines 2658-2679): compare the proposed price against the
current aggregate, in basis points, skipping the check when the
aggregate is zero. -/
def tenPctCheck (price current_avg_price : Nat) : Except Err Unit :=
  if current_avg_price > 0 then
    match (if price > current_avg_price then chSub price current_avg_price
           else chSub current_avg_price price) with
    | .error e => .error e
    | .ok price_change =>
      match chMul price_change 10000 with
      | .error e => .error e
      | .ok m =>
        match chDiv m current_avg_price with
        | .error e => .error e
        | .ok price_change_bps =>
          if ¬ price_change_bps ≤ 1000 then .error .OraclePriceChangeTooLarge
          else .ok ()
  else .ok ()

/-- The cumulative-drift gate of `update_manual_oracle` (src/src/lib.rs
lines 2681-2721): skipped entirely while the baseline is unset, and
enforced against the stored baseline price afterwards. -/
def driftCheck (price base : Nat) (window_start : Int) : Except Err Unit :=
  if window_start = 0 then .ok ()
  else if base > 0 then
    match (if price > base then chSub price base else chSub base price) with
    | .error e => .error e
    | .ok cumulative_change =>
      match chMul cumulative_change 10000 with
      | .error e => .error e
      | .ok m =>
        match chDiv m base with
        | .error e => .error e
        | .ok cumulative_drift_bps =>
          if ¬ cumulative_drift_bps ≤ 3000 then
            .error .OracleCumulativeDriftTooLarge
          else .ok ()
  else .ok ()

/-- `update_manual_oracle` (src/src/lib.rs lines 2632-2760).  The
creator-signature check is elided.  `now` is the runtime clock. -/
def update_manual_oracle (r : Rift) (now : Int) (price confidence : Nat) :
    Except Err Rift :=
  if r.last_manual_oracle_update > 0 ∧
      ¬ now - r.last_manual_oracle_update ≥ 3600 then
    .error .OracleUpdateTooFrequent
  else
    match get_average_oracle_price_with_options r true now with
    | .error e => .error e
    | .ok current_avg_price =>
      match tenPctCheck price current_avg_price with
      | .error e => .error e
      | .ok _ =>
        -- drift baseline: initialize on first manual update, otherwise
        -- enforce the cumulative cap against the stored baseline
        let r1 : Rift :=
          if r.manual_oracle_drift_window_start = 0 then
            { r with
              manual_oracle_base_price := current_avg_price
              manual_oracle_drift_window_start := now }
          else r
        match driftCheck price r.manual_oracle_base_price
            r.manual_oracle_drift_window_start with
        | .error e => .error e
        | .ok _ =>
          if ¬ price > 0 then .error .InvalidOraclePrice
          else if ¬ price ≤ 1000000000000 then .error .OraclePriceTooLarge
          else
            match chMul price 5 with
            | .error e => .error e
            | .ok m5 =>
              match chDiv m5 100 with
              | .error e => .error e
              | .ok max_confidence =>
                if ¬ confidence ≤ max_confidence then .error .InvalidConfidence
                else
                  match add_price_data r1 price confidence now now with
                  | .error e => .error e
                  | .ok r2 =>
                    .ok { r2 with last_manual_oracle_update := now }

/-- Initial rift state written by `create_rift` (src/src/lib.rs lines
1023-1091): zero counters, default 30 bps fees, a zeroed 10-sample
oracle window with `price_index = 0`, backing ratio 1.0 (1e6), guard
clear.  Vault pointers start at the system-program sentinel
(uninitialized). -/
def create_rift (now : Int) : Rift :=
  { is_closed := false
    wrap_fee_bps := 30
    unwrap_fee_bps := 30
    vault_initialized := false
    fees_vault_initialized := false
    withheld_vault_initialized := false
    total_underlying_wrapped := 0
    total_rift_minted := 0
    total_burned := 0
    total_fees_collected := 0
    total_volume_24h := 0
    reentrancy_guard := false
    reentrancy_guard_slot := 0
    oracle_prices := List.replicate 10 { price := 0, confidence := 0, timestamp := 0 }
    price_index := 0
    backing_ratio := 1000000
    last_rebalance := now
    last_oracle_update := now
    oracle_update_interval := 1800
    max_rebalance_interval := 86400
    rebalance_count := 0
    arbitrage_opportunity_bps := 0
    arbitrage_threshold_bps := 200
    price_deviation := 0
    last_manual_oracle_update := 0
    manual_oracle_base_price := 0
    manual_oracle_drift_window_start := 0 }

/-- Initial rift state written by `create_rift_with_vanity_pda`
(src/src/lib.rs lines 279-368): as `create_rift` but the oracle window
is pre-filled with ten default samples of price 1.0 stamped at creation
time (lines 322-330); fields that path does not assign stay at the
zeroed values Anchor gives a fresh account. -/
def create_rift_with_vanity_pda (now : Int) : Rift :=
  { create_rift now with
    oracle_prices := List.replicate 10
      { price := 1000000, confidence := 100000, timestamp := now } }

/-- States of a rift reachable from either creation path through the
embedded operations.  Failed instructions are absent: the runtime
discards every mutation of an instruction that errors, so only
successful runs advance the persistent state.  `vaults_initialized`
covers the three custody-account initialization instructions, which
assign vault pointers and touch nothing else modelled here. -/
inductive Reachable : Rift → Prop where
  | created : ∀ now, Reachable (create_rift now)
  | created_vanity : ∀ now, Reachable (create_rift_with_vanity_pda now)
  | vaults_initialized : ∀ r v f w, Reachable r →
      Reachable { r with
        vault_initialized := v
        fees_vault_initialized := f
        withheld_vault_initialized := w }
  | wrapped : ∀ r env a m slot r2 out, Reachable r →
      (wrap_tokens env a m r slot).1 = .ok (r2, out) → Reachable r2
  | unwrapped : ∀ r env a m slot r2 out, Reachable r →
      (unwrap_from_vault env a m r slot).1 = .ok (r2, out) → Reachable r2
  | distributed : ∀ r env a r2 pa ta, Reachable r →
      distribute_fees_from_vault env a r = .ok (r2, pa, ta) → Reachable r2
  | rebalanced : ∀ r now slot r2 out, Reachable r →
      (trigger_rebalance now r slot).1 = .ok (r2, out) → Reachable r2
  | price_added : ∀ r p c ts now r2, Reachable r →
      add_price_data r p c ts now = .ok r2 → Reachable r2
  | manual_oracle_updated : ∀ r now p c r2, Reachable r →
      update_manual_oracle r now p c = .ok r2 → Reachable r2

theorem chAdd_eq_ok {a b c : Nat} : chAdd a b = .ok c ↔ a + b ≤ U64MAX ∧ a + b = c := by
  unfold chAdd; split <;> simp_all

theorem chSub_eq_ok {a b c : Nat} : chSub a b = .ok c ↔ b ≤ a ∧ a - b = c := by
  unfold chSub; split <;> simp_all

theorem chMul_eq_ok {a b c : Nat} : chMul a b = .ok c ↔ a * b ≤ U64MAX ∧ a * b = c := by
  unfold chMul; split <;> simp_all

theorem chDiv_eq_ok {a b c : Nat} : chDiv a b = .ok c ↔ b ≠ 0 ∧ a / b = c := by
  unfold chDiv; split <;> simp_all

theorem chAdd128_eq_ok {a b c : Nat} : chAdd128 a b = .ok c ↔ a + b ≤ U128MAX ∧ a + b = c := by
  unfold chAdd128; split <;> simp_all

theorem chMul128_eq_ok {a b c : Nat} : chMul128 a b = .ok c ↔ a * b ≤ U128MAX ∧ a * b = c := by
  unfold chMul128; split <;> simp_all

theorem chDiv128_eq_ok {a b c : Nat} : chDiv128 a b = .ok c ↔ b ≠ 0 ∧ a / b = c := by
  unfold chDiv128; split <;> simp_all

theorem i64chSub_eq_ok {a b : Int} {c : Int} :
    i64chSub a b = .ok c ↔ (-(2 ^ 63) ≤ a - b ∧ a - b < 2 ^ 63) ∧ a - b = c := by
  unfold i64chSub; split <;> simp_all

theorem u64try_eq_ok {a c : Nat} : u64try a = .ok c ↔ a ≤ U64MAX ∧ a = c := by
  unfold u64try; split <;> simp_all

/-- Successful runs of `wrapBody` are exactly characterized: the rift
must be open, the requested amount positive, the measured vault delta
nonnegative; the minted output is the measured delta net of the fee
computed on the measured delta, and the new state updates exactly the
three counters, crediting the fee ledger with the measured fee-vault
delta when a fee transfer happened and with the computed fee when the
fee stayed in the main vault. -/
theorem wrapBody_ok_elim {env : WrapEnv} {a m : Nat} {r r2 : Rift} {out : Nat}
    (h : wrapBody env a m r = .ok (r2, out)) :
    r.is_closed = false ∧ 0 < a ∧
    env.vaultBefore ≤ env.vaultAfter ∧
    out = (env.vaultAfter - env.vaultBefore) -
      (env.vaultAfter - env.vaultBefore) * r.wrap_fee_bps / 10000 ∧
    r2 = { r with
      total_underlying_wrapped := r.total_underlying_wrapped + out
      total_rift_minted := r.total_rift_minted + out
      total_fees_collected := r.total_fees_collected +
        (if 0 < (env.vaultAfter - env.vaultBefore) * r.wrap_fee_bps / 10000 ∧
            r.fees_vault_initialized = true
         then env.feesVaultAfter - env.feesVaultBefore
         else (env.vaultAfter - env.vaultBefore) * r.wrap_fee_bps / 10000) } := by
  simp only [wrapBody] at h
  repeat' (split at h <;> try exact Except.noConfusion h)
  all_goals simp_all [chAdd_eq_ok, chSub_eq_ok, chMul_eq_ok, chDiv_eq_ok]
  all_goals (try (split_ifs at * <;>
    simp_all [chAdd_eq_ok, chSub_eq_ok, chMul_eq_ok, chDiv_eq_ok]))
  all_goals omega

/-- Successful runs of `unwrapBody` are exactly characterized.  Writing
`fee` for `a * unwrap_fee_bps / 10000` and `debit` for the measured
vault delta `vaultBalanceEntry - vaultAfter`: the rift is open, the
burned amount positive, the measured debit covers the net payout, the
caller receives the measured destination delta, and the counters move by
`debit` (underlying), `a` (minted/burned), `fee` (fee ledger) and
`a - fee` (volume). -/
theorem unwrapBody_ok_elim {env : UnwrapEnv} {a m : Nat} {r r2 : Rift} {out : Nat}
    (h : unwrapBody env a m r = .ok (r2, out)) :
    r.is_closed = false ∧ 0 < a ∧
    env.vaultAfter ≤ env.vaultBalanceEntry ∧
    env.userBefore ≤ env.userAfter ∧
    a - a * r.unwrap_fee_bps / 10000 ≤ env.vaultBalanceEntry - env.vaultAfter ∧
    m ≤ env.userAfter - env.userBefore ∧
    out = env.userAfter - env.userBefore ∧
    env.vaultBalanceEntry - env.vaultAfter ≤ r.total_underlying_wrapped ∧
    a ≤ r.total_rift_minted ∧
    r2 = { r with
      total_underlying_wrapped :=
        r.total_underlying_wrapped - (env.vaultBalanceEntry - env.vaultAfter)
      total_rift_minted := r.total_rift_minted - a
      total_burned := r.total_burned + a
      total_fees_collected := r.total_fees_collected + a * r.unwrap_fee_bps / 10000
      total_volume_24h :=
        r.total_volume_24h + (a - a * r.unwrap_fee_bps / 10000) } := by
  simp only [unwrapBody] at h
  repeat' (split at h <;> try exact Except.noConfusion h)
  all_goals simp_all [chAdd_eq_ok, chSub_eq_ok, chMul_eq_ok, chDiv_eq_ok]
  all_goals omega

/-- Successful runs of `distribute_fees_from_vault` are exactly
characterized.  Writing `debit` for the measured fee-vault delta: the
request is positive and within the cached fee-vault balance, the debit
is at least 98 percent of the request, the split is floor-half to the
partner with the remainder to the treasury, and the fee ledger drops by
the measured debit. -/
theorem distribute_ok_elim {env : DistributeEnv} {amount : Nat} {r r2 : Rift}
    {pa ta : Nat}
    (h : distribute_fees_from_vault env amount r = .ok (r2, pa, ta)) :
    0 < amount ∧ amount ≤ env.feesVaultBalance ∧
    env.feesVaultAfter ≤ env.feesVaultBalance ∧
    amount * 98 / 100 ≤ env.feesVaultBalance - env.feesVaultAfter ∧
    env.feesVaultBalance - env.feesVaultAfter ≤ r.total_fees_collected ∧
    pa = amount / 2 ∧ ta = amount - amount / 2 ∧
    r2 = { r with total_fees_collected :=
      r.total_fees_collected - (env.feesVaultBalance - env.feesVaultAfter) } := by
  simp only [distribute_fees_from_vault] at h
  repeat' (split at h <;> try exact Except.noConfusion h)
  all_goals simp_all [chAdd_eq_ok, chSub_eq_ok, chMul_eq_ok, chDiv_eq_ok]
  all_goals omega

/-- Elimination form for `runClearedBody`: a successful result comes from
a successful body run, with the guard fields cleared afterwards. -/
theorem runClearedBody_ok_elim {body : Rift → Except Err (Rift × Nat)}
    {r1 r2 : Rift} {out : Nat}
    (h : (runClearedBody body r1).1 = .ok (r2, out)) :
    ∃ rb, body r1 = .ok (rb, out) ∧
      r2 = { rb with reentrancy_guard := false, reentrancy_guard_slot := 0 } := by
  unfold runClearedBody at h
  split at h
  · next rb outb hb =>
    simp only [Except.ok.injEq, Prod.mk.injEq] at h
    exact ⟨rb, by rw [hb, h.2], h.1.symm⟩
  · exact Except.noConfusion h

/-- Elimination form for `guardedRun`: a successful result means the body
ran on the guard-armed state and the guard fields were cleared. -/
theorem guardedRun_ok_elim {body : Rift → Except Err (Rift × Nat)}
    {r r2 : Rift} {slot out : Nat}
    (h : (guardedRun body r slot).1 = .ok (r2, out)) :
    ∃ rb, body { r with reentrancy_guard := true, reentrancy_guard_slot := slot }
        = .ok (rb, out) ∧
      r2 = { rb with reentrancy_guard := false, reentrancy_guard_slot := 0 } := by
  unfold guardedRun at h
  split at h
  · split at h
    · exact runClearedBody_ok_elim h
    · exact Except.noConfusion h
  · exact runClearedBody_ok_elim h

/-- Successful `wrap_tokens`: the guard wrapper adds nothing to the
accounting, so the counter updates of `wrapBody` hold against the entry
state and the result additionally has the guard cleared. -/
theorem wrap_tokens_ok_elim {env : WrapEnv} {a m : Nat} {r : Rift} {slot : Nat}
    {r2 : Rift} {out : Nat}
    (h : (wrap_tokens env a m r slot).1 = .ok (r2, out)) :
    r.is_closed = false ∧ 0 < a ∧ env.vaultBefore ≤ env.vaultAfter ∧
    out = (env.vaultAfter - env.vaultBefore) -
      (env.vaultAfter - env.vaultBefore) * r.wrap_fee_bps / 10000 ∧
    r2 = { r with
      total_underlying_wrapped := r.total_underlying_wrapped + out
      total_rift_minted := r.total_rift_minted + out
      total_fees_collected := r.total_fees_collected +
        (if 0 < (env.vaultAfter - env.vaultBefore) * r.wrap_fee_bps / 10000 ∧
            r.fees_vault_initialized = true
         then env.feesVaultAfter - env.feesVaultBefore
         else (env.vaultAfter - env.vaultBefore) * r.wrap_fee_bps / 10000)
      reentrancy_guard := false
      reentrancy_guard_slot := 0 } := by
  obtain ⟨rb, hb, hr2⟩ := guardedRun_ok_elim h
  obtain ⟨h1, h2, h3, h4, h5⟩ := wrapBody_ok_elim hb
  subst hr2
  subst h5
  simp_all

/-- Successful `unwrap_from_vault`: counter updates of `unwrapBody`
against the entry state, with the guard cleared in the result. -/
theorem unwrap_from_vault_ok_elim {env : UnwrapEnv} {a m : Nat} {r : Rift}
    {slot : Nat} {r2 : Rift} {out : Nat}
    (h : (unwrap_from_vault env a m r slot).1 = .ok (r2, out)) :
    r.is_closed = false ∧ 0 < a ∧
    env.vaultAfter ≤ env.vaultBalanceEntry ∧
    env.userBefore ≤ env.userAfter ∧
    a - a * r.unwrap_fee_bps / 10000 ≤ env.vaultBalanceEntry - env.vaultAfter ∧
    out = env.userAfter - env.userBefore ∧
    env.vaultBalanceEntry - env.vaultAfter ≤ r.total_underlying_wrapped ∧
    a ≤ r.total_rift_minted ∧
    r2 = { r with
      total_underlying_wrapped :=
        r.total_underlying_wrapped - (env.vaultBalanceEntry - env.vaultAfter)
      total_rift_minted := r.total_rift_minted - a
      total_burned := r.total_burned + a
      total_fees_collected := r.total_fees_collected + a * r.unwrap_fee_bps / 10000
      total_volume_24h := r.total_volume_24h + (a - a * r.unwrap_fee_bps / 10000)
      reentrancy_guard := false
      reentrancy_guard_slot := 0 } := by
  obtain ⟨rb, hb, hr2⟩ := guardedRun_ok_elim h
  obtain ⟨h1, h2, h3, h4, h5, h6, h7, h8, h9, h10⟩ := unwrapBody_ok_elim hb
  subst hr2
  subst h10
  simp_all

/-- Concrete rift for witness runs: the default creation state. -/
def rDefault : Rift := create_rift 0

/-- Concrete rift holding wrapped supply, for unwrap witness runs. -/
def rLoaded : Rift :=
  { rDefault with total_underlying_wrapped := 20000, total_rift_minted := 20000 }

/-- Claim C7: for every successful `distribute_fees_from_vault amount`,
the partner leg is `amount / 2` (integer floor), the treasury leg is the
remainder, and the two legs sum exactly to `amount`, with no truncation
loss for odd amounts. -/
theorem C7_fee_split_exact {env : DistributeEnv} {amount : Nat} {r r2 : Rift}
    {pa ta : Nat}
    (h : distribute_fees_from_vault env amount r = .ok (r2, pa, ta)) :
    pa = amount / 2 ∧ ta = amount - amount / 2 ∧ pa + ta = amount := by
  obtain ⟨h1, h2, h3, h4, h5, h6, h7, h8⟩ := distribute_ok_elim h
  omega

/-- Witness for C7: distributing an odd amount 5 from a fee vault holding
5 yields the split 2 to the partner and 3 to the treasury, summing to 5. -/
theorem C7_fee_split_exact_witness :
    distribute_fees_from_vault (DistributeEnv.mk 5 0 2 3) 5
      { rDefault with total_fees_collected := 5 }
      = .ok ({ rDefault with total_fees_collected := 0 }, 2, 3) ∧
    (2 = 5 / 2 ∧ 3 = 5 - 5 / 2 ∧ 2 + 3 = 5) :=
  ⟨by decide,
   @C7_fee_split_exact (DistributeEnv.mk 5 0 2 3) 5
     { rDefault with total_fees_collected := 5 }
     { rDefault with total_fees_collected := 0 } 2 3 (by decide)⟩

/-- Claim C2: on every successful `wrap_tokens`, both supply counters
rise by exactly `net`, the measured vault increase minus the fee
computed on that measured increase; on every successful
`unwrap_from_vault`, `total_underlying_wrapped` falls by exactly the
measured vault debit and `total_rift_minted` by the burned amount. -/
theorem C2_supply_counters :
    (∀ (env : WrapEnv) (a m : Nat) (r : Rift) (slot : Nat) (r2 : Rift) (out : Nat),
      (wrap_tokens env a m r slot).1 = .ok (r2, out) →
      out = (env.vaultAfter - env.vaultBefore) -
        (env.vaultAfter - env.vaultBefore) * r.wrap_fee_bps / 10000 ∧
      r2.total_underlying_wrapped = r.total_underlying_wrapped + out ∧
      r2.total_rift_minted = r.total_rift_minted + out) ∧
    (∀ (env : UnwrapEnv) (a m : Nat) (r : Rift) (slot : Nat) (r2 : Rift) (out : Nat),
      (unwrap_from_vault env a m r slot).1 = .ok (r2, out) →
      r2.total_underlying_wrapped + (env.vaultBalanceEntry - env.vaultAfter)
        = r.total_underlying_wrapped ∧
      r2.total_rift_minted + a = r.total_rift_minted) := by
  constructor
  · intro env a m r slot r2 out h
    obtain ⟨h1, h2, h3, h4, h5⟩ := wrap_tokens_ok_elim h
    subst h5
    simp_all
  · intro env a m r slot r2 out h
    obtain ⟨h1, h2, h3, h4, h5, h6, h7, h8, h9⟩ := unwrap_from_vault_ok_elim h
    subst h9
    simp only
    omega

/-- Witness for C2: a wrap of 10000 at the default 30 bps fee mints 9970
and lifts both counters by 9970; an unwrap of 10000 burns 10000 and
lowers the wrapped counter by the measured 9970 vault debit. -/
theorem C2_supply_counters_witness :
    ((wrap_tokens (WrapEnv.mk 0 10000 0 0) 10000 0 rDefault 1).1
        = .ok ({ rDefault with
          total_underlying_wrapped := 9970
          total_rift_minted := 9970
          total_fees_collected := 30 }, 9970) ∧
      (9970 = (10000 - 0) - (10000 - 0) * rDefault.wrap_fee_bps / 10000 ∧
       9970 = rDefault.total_underlying_wrapped + 9970 ∧
       9970 = rDefault.total_rift_minted + 9970)) ∧
    ((unwrap_from_vault (UnwrapEnv.mk 20000 10030 0 9970 0 0) 10000 0 rLoaded 1).1
        = .ok ({ rLoaded with
          total_underlying_wrapped := 10030
          total_rift_minted := 10000
          total_burned := 10000
          total_fees_collected := 30
          total_volume_24h := 9970 }, 9970) ∧
      (10030 + (20000 - 10030) = rLoaded.total_underlying_wrapped ∧
       10000 + 10000 = rLoaded.total_rift_minted)) := by
  constructor
  · constructor
    · decide
    · have h := C2_supply_counters.1 (WrapEnv.mk 0 10000 0 0) 10000 0 rDefault 1
        { rDefault with
          total_underlying_wrapped := 9970
          total_rift_minted := 9970
          total_fees_collected := 30 } 9970 (by decide)
      simpa using h
  · constructor
    · decide
    · have h := C2_supply_counters.2 (UnwrapEnv.mk 20000 10030 0 9970 0 0) 10000 0
        rLoaded 1
        { rLoaded with
          total_underlying_wrapped := 10030
          total_rift_minted := 10000
          total_burned := 10000
          total_fees_collected := 30
          total_volume_24h := 9970 } 9970 (by decide)
      simpa using h

/-- Concrete rift with an initialized fee vault and outstanding supply,
for runs against a fee-on-transfer underlying. -/
def rFeeVault : Rift :=
  { rDefault with
    fees_vault_initialized := true
    total_underlying_wrapped := 20000
    total_rift_minted := 20000 }

/-- Result state of unwrapping 10000 from `rFeeVault` when the fee leg
loses 10 units to a transfer fee on the way to the fee vault. -/
def rFeeVaultOut : Rift :=
  { rFeeVault with
    total_underlying_wrapped := 10000
    total_rift_minted := 10000
    total_burned := 10000
    total_fees_collected := 30
    total_volume_24h := 9970 }

/-- Claim C1 (amended): how `total_fees_collected` actually moves.  On
wrap it rises by the measured fee-vault credit when a fee transfer
happened, and by the computed fee when the fee stayed in the main vault;
on unwrap it rises by the pre-computed `unwrap_fee`, with no measurement
of the fee-vault credit; on distribution it falls by the measured
fee-vault debit. -/
theorem C1_fee_ledger :
    (∀ (env : WrapEnv) (a m : Nat) (r : Rift) (slot : Nat) (r2 : Rift) (out : Nat),
      (wrap_tokens env a m r slot).1 = .ok (r2, out) →
      r2.total_fees_collected = r.total_fees_collected +
        (if 0 < (env.vaultAfter - env.vaultBefore) * r.wrap_fee_bps / 10000 ∧
            r.fees_vault_initialized = true
         then env.feesVaultAfter - env.feesVaultBefore
         else (env.vaultAfter - env.vaultBefore) * r.wrap_fee_bps / 10000)) ∧
    (∀ (env : UnwrapEnv) (a m : Nat) (r : Rift) (slot : Nat) (r2 : Rift) (out : Nat),
      (unwrap_from_vault env a m r slot).1 = .ok (r2, out) →
      r2.total_fees_collected = r.total_fees_collected + a * r.unwrap_fee_bps / 10000) ∧
    (∀ (env : DistributeEnv) (amount : Nat) (r r2 : Rift) (pa ta : Nat),
      distribute_fees_from_vault env amount r = .ok (r2, pa, ta) →
      r2.total_fees_collected + (env.feesVaultBalance - env.feesVaultAfter)
        = r.total_fees_collected) := by
  refine ⟨?_, ?_, ?_⟩
  · intro env a m r slot r2 out h
    obtain ⟨h1, h2, h3, h4, h5⟩ := wrap_tokens_ok_elim h
    subst h5
    simp
  · intro env a m r slot r2 out h
    obtain ⟨h1, h2, h3, h4, h5, h6, h7, h8, h9⟩ := unwrap_from_vault_ok_elim h
    subst h9
    simp
  · intro env amount r r2 pa ta h
    obtain ⟨h1, h2, h3, h4, h5, h6, h7, h8⟩ := distribute_ok_elim h
    subst h8
    simp only
    omega

/-- Witness for C1 (amended): the unwrap leg at concrete inputs — fee 30
is added to the ledger. -/
theorem C1_fee_ledger_witness :
    (unwrap_from_vault (UnwrapEnv.mk 20000 10000 0 9970 0 20) 10000 0 rFeeVault 1).1
      = .ok (rFeeVaultOut, 9970) ∧
    rFeeVaultOut.total_fees_collected
      = rFeeVault.total_fees_collected + 10000 * rFeeVault.unwrap_fee_bps / 10000 :=
  ⟨by decide,
   C1_fee_ledger.2.1 (UnwrapEnv.mk 20000 10000 0 9970 0 20) 10000 0 rFeeVault 1
     rFeeVaultOut 9970 (by decide)⟩

/-- Counterexample to C1 as stated: a successful `unwrap_from_vault`
against a fee-on-transfer underlying credits the fee vault with only 20
units (measured), yet `total_fees_collected` rises by the pre-computed
fee 30 — the counter does move by the requested/pre-computed amount. -/
theorem C1_counterexample :
    (unwrap_from_vault (UnwrapEnv.mk 20000 10000 0 9970 0 20) 10000 0 rFeeVault 1).1
      = .ok (rFeeVaultOut, 9970) ∧
    rFeeVault.fees_vault_initialized = true ∧
    (UnwrapEnv.mk 20000 10000 0 9970 0 20).feesVaultAfter
      - (UnwrapEnv.mk 20000 10000 0 9970 0 20).feesVaultBefore = 20 ∧
    rFeeVaultOut.total_fees_collected = rFeeVault.total_fees_collected + 30 ∧
    ¬ rFeeVaultOut.total_fees_collected = rFeeVault.total_fees_collected + 20 := by
  decide

/-- Claim C6 (amended): after the two outbound transfers,
`distribute_fees_from_vault` re-reads only the fee-vault balance; the
measured fee-vault debit must be at least 98 percent of the requested
amount (otherwise the run fails with `ExcessiveTransferFee`), and the
ledger drops by that measured debit.  Destination balances are not
re-read, and the debit is not required to equal the request. -/
theorem C6_distribution_checks :
    (∀ (env : DistributeEnv) (amount : Nat) (r r2 : Rift) (pa ta : Nat),
      distribute_fees_from_vault env amount r = .ok (r2, pa, ta) →
      amount * 98 / 100 ≤ env.feesVaultBalance - env.feesVaultAfter ∧
      r2.total_fees_collected + (env.feesVaultBalance - env.feesVaultAfter)
        = r.total_fees_collected) ∧
    (∀ (env : DistributeEnv) (amount : Nat) (r : Rift),
      0 < amount → amount ≤ env.feesVaultBalance →
      env.feesVaultAfter ≤ env.feesVaultBalance →
      amount * 98 ≤ U64MAX →
      env.feesVaultBalance - env.feesVaultAfter < amount * 98 / 100 →
      distribute_fees_from_vault env amount r = .error .ExcessiveTransferFee) := by
  constructor
  · intro env amount r r2 pa ta h
    obtain ⟨h1, h2, h3, h4, h5, h6, h7, h8⟩ := distribute_ok_elim h
    subst h8
    simp only
    omega
  · intro env amount r h0 h1 h2 h3 h4
    unfold distribute_fees_from_vault
    repeat' split
    all_goals simp_all [chSub_eq_ok, chMul_eq_ok, chDiv_eq_ok, chSub, chMul, chDiv]
    all_goals (try (split_ifs at * <;>
      simp_all [chSub_eq_ok, chMul_eq_ok, chDiv_eq_ok]))
    all_goals omega

/-- Witness for C6 (amended): a distribution of 1000 with a measured
fee-vault debit of only 600 fails with `ExcessiveTransferFee`. -/
theorem C6_distribution_checks_witness :
    0 < 1000 ∧ (1000 : Nat) ≤ 1000 ∧ (400 : Nat) ≤ 1000 ∧
    1000 * 98 ≤ U64MAX ∧ 1000 - 400 < 1000 * 98 / 100 ∧
    distribute_fees_from_vault (DistributeEnv.mk 1000 400 0 0) 1000 rDefault
      = .error .ExcessiveTransferFee :=
  ⟨by decide, by decide, by decide, by decide, by decide,
   C6_distribution_checks.2 (DistributeEnv.mk 1000 400 0 0) 1000 rDefault
     (by decide) (by decide) (by decide) (by decide) (by decide)⟩

/-- Counterexample to C6 as stated: a distribution of 1000 succeeds even
though the destination accounts received only 200 in total (far below 98
percent of the request, which the claim says must fail with
`ExcessiveTransferFee`) and the fee-vault debit is 985, not exactly the
requested 1000 — the source never reads the destination balances and
only bounds the vault-side debit from below. -/
theorem C6_counterexample :
    distribute_fees_from_vault (DistributeEnv.mk 1000 15 100 100) 1000
      { rDefault with total_fees_collected := 1000 }
      = .ok ({ rDefault with total_fees_collected := 15 }, 500, 500) ∧
    (DistributeEnv.mk 1000 15 100 100).partnerReceived
      + (DistributeEnv.mk 1000 15 100 100).treasuryReceived = 200 ∧
    200 < 1000 * 98 / 100 ∧
    (DistributeEnv.mk 1000 15 100 100).feesVaultBalance
      - (DistributeEnv.mk 1000 15 100 100).feesVaultAfter = 985 ∧
    ¬ (985 : Nat) = 1000 := by
  decide

/-- Claim C8: `close_rift` succeeds exactly when the minted supply, the
wrapped and fee counters, and the raw balance of every initialized
custody vault are all zero; any failure is one of the non-empty-vault
errors. -/
theorem C8_closure_guard (env : CloseEnv) (r : Rift) :
    (close_rift env r = .ok () ↔
      (r.total_rift_minted = 0 ∧ r.total_underlying_wrapped = 0 ∧
       r.total_fees_collected = 0 ∧
       (r.vault_initialized = true → env.vault_balance = 0) ∧
       (r.fees_vault_initialized = true → env.fees_vault_balance = 0) ∧
       (r.withheld_vault_initialized = true → env.withheld_vault_balance = 0))) ∧
    (∀ e, close_rift env r = .error e →
      e = .VaultNotEmpty ∨ e = .FeesVaultNotEmpty ∨ e = .WithheldVaultNotEmpty) := by
  constructor
  · unfold close_rift
    split_ifs <;> simp_all
  · intro e
    unfold close_rift
    split_ifs <;> simp_all

/-- Witness for C8: a rift with outstanding minted supply cannot be
closed — the run fails with a non-empty-vault error. -/
theorem C8_closure_guard_witness :
    close_rift (CloseEnv.mk 0 0 0) { rDefault with total_rift_minted := 5 }
      = .error .VaultNotEmpty ∧
    (Err.VaultNotEmpty = .VaultNotEmpty ∨ Err.VaultNotEmpty = .FeesVaultNotEmpty ∨
     Err.VaultNotEmpty = .WithheldVaultNotEmpty) :=
  ⟨by decide,
   (C8_closure_guard (CloseEnv.mk 0 0 0)
     { rDefault with total_rift_minted := 5 }).2 .VaultNotEmpty (by decide)⟩

/-- After `runClearedBody`, the in-memory guard fields are always
cleared, on the success path and on the failure path alike. -/
theorem runClearedBody_guard_cleared (body : Rift → Except Err (Rift × Nat))
    (r1 : Rift) :
    (runClearedBody body r1).2.reentrancy_guard = false ∧
    (runClearedBody body r1).2.reentrancy_guard_slot = 0 := by
  unfold runClearedBody
  split <;> simp

/-- Case analysis of the guard wrapper: reject within the timeout,
force-clear-and-proceed past it, proceed when the guard is free. -/
theorem guardedRun_cases (body : Rift → Except Err (Rift × Nat)) (r : Rift)
    (slot : Nat) :
    (r.reentrancy_guard = true →
      slot ≤ r.reentrancy_guard_slot + REENTRANCY_TIMEOUT_SLOTS →
      guardedRun body r slot = (.error .ReentrancyDetected, r)) ∧
    (r.reentrancy_guard = true →
      r.reentrancy_guard_slot + REENTRANCY_TIMEOUT_SLOTS < slot →
      guardedRun body r slot = runClearedBody body
        { r with reentrancy_guard := true, reentrancy_guard_slot := slot }) ∧
    (r.reentrancy_guard = false →
      guardedRun body r slot = runClearedBody body
        { r with reentrancy_guard := true, reentrancy_guard_slot := slot }) := by
  unfold guardedRun
  refine ⟨fun h1 h2 => ?_, fun h1 h2 => ?_, fun h1 => ?_⟩ <;>
    simp [h1] <;> omega

/-- Whenever the entry check passes (guard free, or expired past the
timeout), the returned in-memory state has the guard fields cleared. -/
theorem guardedRun_guard_cleared (body : Rift → Except Err (Rift × Nat))
    (r : Rift) (slot : Nat)
    (h : r.reentrancy_guard = false ∨
      r.reentrancy_guard_slot + REENTRANCY_TIMEOUT_SLOTS < slot) :
    (guardedRun body r slot).2.reentrancy_guard = false ∧
    (guardedRun body r slot).2.reentrancy_guard_slot = 0 := by
  rcases h with h | h
  · rw [(guardedRun_cases body r slot).2.2 h]
    exact runClearedBody_guard_cleared _ _
  · cases hg : r.reentrancy_guard
    · rw [(guardedRun_cases body r slot).2.2 hg]
      exact runClearedBody_guard_cleared _ _
    · rw [(guardedRun_cases body r slot).2.1 hg h]
      exact runClearedBody_guard_cleared _ _

/-- Claim C4: for each guarded entry point (`wrap_tokens`,
`unwrap_from_vault`, `trigger_rebalance`): a set guard whose age is at
most the 432000-slot timeout makes the call fail with
`ReentrancyDetected`; a set guard older than the timeout is force-
cleared and the call proceeds into the body; and whenever the body runs
(so on both its success and failure exits) the returned state has guard
flag false and guard slot 0. -/
theorem C4_reentrancy_guard :
    (∀ (env : WrapEnv) (a m : Nat) (r : Rift) (slot : Nat),
      r.reentrancy_guard = true →
      slot ≤ r.reentrancy_guard_slot + REENTRANCY_TIMEOUT_SLOTS →
      wrap_tokens env a m r slot = (.error .ReentrancyDetected, r)) ∧
    (∀ (env : UnwrapEnv) (a m : Nat) (r : Rift) (slot : Nat),
      r.reentrancy_guard = true →
      slot ≤ r.reentrancy_guard_slot + REENTRANCY_TIMEOUT_SLOTS →
      unwrap_from_vault env a m r slot = (.error .ReentrancyDetected, r)) ∧
    (∀ (now : Int) (r : Rift) (slot : Nat),
      r.reentrancy_guard = true →
      slot ≤ r.reentrancy_guard_slot + REENTRANCY_TIMEOUT_SLOTS →
      trigger_rebalance now r slot = (.error .ReentrancyDetected, r)) ∧
    (∀ (env : WrapEnv) (a m : Nat) (r : Rift) (slot : Nat),
      r.reentrancy_guard = true →
      r.reentrancy_guard_slot + REENTRANCY_TIMEOUT_SLOTS < slot →
      wrap_tokens env a m r slot = runClearedBody (wrapBody env a m)
        { r with reentrancy_guard := true, reentrancy_guard_slot := slot }) ∧
    (∀ (env : UnwrapEnv) (a m : Nat) (r : Rift) (slot : Nat),
      r.reentrancy_guard = true →
      r.reentrancy_guard_slot + REENTRANCY_TIMEOUT_SLOTS < slot →
      unwrap_from_vault env a m r slot = runClearedBody (unwrapBody env a m)
        { r with reentrancy_guard := true, reentrancy_guard_slot := slot }) ∧
    (∀ (now : Int) (r : Rift) (slot : Nat),
      r.reentrancy_guard = true →
      r.reentrancy_guard_slot + REENTRANCY_TIMEOUT_SLOTS < slot →
      trigger_rebalance now r slot = runClearedBody (triggerRebalanceBody now)
        { r with reentrancy_guard := true, reentrancy_guard_slot := slot }) ∧
    (∀ (env : WrapEnv) (a m : Nat) (r : Rift) (slot : Nat),
      r.reentrancy_guard = false ∨
        r.reentrancy_guard_slot + REENTRANCY_TIMEOUT_SLOTS < slot →
      (wrap_tokens env a m r slot).2.reentrancy_guard = false ∧
      (wrap_tokens env a m r slot).2.reentrancy_guard_slot = 0) ∧
    (∀ (env : UnwrapEnv) (a m : Nat) (r : Rift) (slot : Nat),
      r.reentrancy_guard = false ∨
        r.reentrancy_guard_slot + REENTRANCY_TIMEOUT_SLOTS < slot →
      (unwrap_from_vault env a m r slot).2.reentrancy_guard = false ∧
      (unwrap_from_vault env a m r slot).2.reentrancy_guard_slot = 0) ∧
    (∀ (now : Int) (r : Rift) (slot : Nat),
      r.reentrancy_guard = false ∨
        r.reentrancy_guard_slot + REENTRANCY_TIMEOUT_SLOTS < slot →
      (trigger_rebalance now r slot).2.reentrancy_guard = false ∧
      (trigger_rebalance now r slot).2.reentrancy_guard_slot = 0) := by
  refine ⟨?_, ?_, ?_, ?_, ?_, ?_, ?_, ?_, ?_⟩
  · intro env a m r slot h1 h2
    exact (guardedRun_cases (wrapBody env a m) r slot).1 h1 h2
  · intro env a m r slot h1 h2
    exact (guardedRun_cases (unwrapBody env a m) r slot).1 h1 h2
  · intro now r slot h1 h2
    exact (guardedRun_cases (triggerRebalanceBody now) r slot).1 h1 h2
  · intro env a m r slot h1 h2
    exact (guardedRun_cases (wrapBody env a m) r slot).2.1 h1 h2
  · intro env a m r slot h1 h2
    exact (guardedRun_cases (unwrapBody env a m) r slot).2.1 h1 h2
  · intro now r slot h1 h2
    exact (guardedRun_cases (triggerRebalanceBody now) r slot).2.1 h1 h2
  · intro env a m r slot h
    exact guardedRun_guard_cleared (wrapBody env a m) r slot h
  · intro env a m r slot h
    exact guardedRun_guard_cleared (unwrapBody env a m) r slot h
  · intro now r slot h
    exact guardedRun_guard_cleared (triggerRebalanceBody now) r slot h

/-- Concrete rift whose reentrancy guard was set at slot 100. -/
def rGuarded : Rift :=
  { rDefault with reentrancy_guard := true, reentrancy_guard_slot := 100 }

/-- Witness for C4: on a rift whose guard was set at slot 100, a call at
slot 200 (age within the timeout) fails with `ReentrancyDetected`, and a
call at slot 500000 (age past the timeout) leaves the guard cleared. -/
theorem C4_reentrancy_guard_witness :
    rGuarded.reentrancy_guard = true ∧
    (200 : Nat) ≤ 100 + REENTRANCY_TIMEOUT_SLOTS ∧
    wrap_tokens (WrapEnv.mk 0 0 0 0) 1 0 rGuarded 200
      = (.error .ReentrancyDetected, rGuarded) ∧
    ((wrap_tokens (WrapEnv.mk 0 0 0 0) 1 0 rGuarded 500000).2.reentrancy_guard
        = false ∧
     (wrap_tokens (WrapEnv.mk 0 0 0 0) 1 0 rGuarded 500000).2.reentrancy_guard_slot
        = 0) :=
  ⟨by decide, by decide,
   C4_reentrancy_guard.1 (WrapEnv.mk 0 0 0 0) 1 0 rGuarded 200
     (by decide) (by decide),
   C4_reentrancy_guard.2.2.2.2.2.2.1 (WrapEnv.mk 0 0 0 0) 1 0 rGuarded 500000
     (Or.inr (by decide))⟩

/-- Forward run of `wrapBody` with a zero wrap fee against an honest
underlying (the vault gains exactly the requested amount): the body
succeeds, mints the full amount and lifts both supply counters by it. -/
theorem wrapBody_zero_fee_run (r : Rift) (v0 fb X : Nat)
    (hopen : r.is_closed = false) (hfee : r.wrap_fee_bps = 0) (hX : 0 < X)
    (hv : v0 + X ≤ U64MAX)
    (h1 : r.total_underlying_wrapped + X ≤ U64MAX)
    (h2 : r.total_rift_minted + X ≤ U64MAX) :
    wrapBody (WrapEnv.mk v0 (v0 + X) fb fb) X 0 r =
      .ok ({ r with
        total_underlying_wrapped := r.total_underlying_wrapped + X
        total_rift_minted := r.total_rift_minted + X }, X) := by
  have hXle : X ≤ U64MAX := le_trans (Nat.le_add_left X v0) hv
  unfold wrapBody chSub chMul chDiv chAdd
  simp [hopen, hfee, Nat.pos_iff_ne_zero.mp hX, hXle, h1, h2]

/-- Forward run of `unwrapBody` with a zero unwrap fee against an honest
underlying (the vault loses exactly the net amount and the caller gains
it): the body succeeds and returns exactly the requested amount. -/
theorem unwrapBody_zero_fee_run (r : Rift) (B u0 X : Nat)
    (hopen : r.is_closed = false) (hfee : r.unwrap_fee_bps = 0) (hX : 0 < X)
    (hB : X ≤ B) (hu : u0 + X ≤ U64MAX)
    (htuw : X ≤ r.total_underlying_wrapped)
    (htrm : X ≤ r.total_rift_minted)
    (htb : r.total_burned + X ≤ U64MAX)
    (htfc : r.total_fees_collected ≤ U64MAX)
    (htv : r.total_volume_24h + X ≤ U64MAX) :
    unwrapBody (UnwrapEnv.mk B (B - X) u0 (u0 + X) 0 0) X 0 r =
      .ok ({ r with
        total_underlying_wrapped := r.total_underlying_wrapped - X
        total_rift_minted := r.total_rift_minted - X
        total_burned := r.total_burned + X
        total_volume_24h := r.total_volume_24h + X }, X) := by
  have hXle : X ≤ U64MAX := le_trans (Nat.le_add_left X u0) hu
  have hBB : B - (B - X) = X := by omega
  unfold unwrapBody chSub chMul chDiv chAdd
  simp [hopen, hfee, Nat.pos_iff_ne_zero.mp hX, hXle, hB, hBB, htuw, htrm, htb,
    htfc, htv, Nat.sub_le]

/-- Claim C3: with both fee rates at 0 bps and an underlying that applies
no transfer fee, wrapping `X > 0` and then unwrapping the full minted
amount returns exactly `X` underlying to the caller.  The hypotheses are
the u64 range constraints of the on-chain counters and balances. -/
theorem C3_zero_fee_round_trip (r : Rift) (v0 u0 X slot1 slot2 : Nat)
    (hopen : r.is_closed = false) (hg : r.reentrancy_guard = false)
    (hwf : r.wrap_fee_bps = 0) (huf : r.unwrap_fee_bps = 0) (hX : 0 < X)
    (hv : v0 + X ≤ U64MAX) (hu : u0 + X ≤ U64MAX)
    (h1 : r.total_underlying_wrapped + X ≤ U64MAX)
    (h2 : r.total_rift_minted + X ≤ U64MAX)
    (h3 : r.total_burned + X ≤ U64MAX)
    (h4 : r.total_volume_24h + X ≤ U64MAX)
    (h5 : r.total_fees_collected ≤ U64MAX) :
    ∃ r1 r2,
      (wrap_tokens (WrapEnv.mk v0 (v0 + X) 0 0) X 0 r slot1).1 = .ok (r1, X) ∧
      r1.reentrancy_guard = false ∧
      (unwrap_from_vault (UnwrapEnv.mk (v0 + X) v0 u0 (u0 + X) 0 0) X 0 r1 slot2).1
        = .ok (r2, X) := by
  have hwrap := wrapBody_zero_fee_run
    { r with reentrancy_guard := true, reentrancy_guard_slot := slot1 }
    v0 0 X hopen hwf hX hv h1 h2
  refine ⟨{ r with
      total_underlying_wrapped := r.total_underlying_wrapped + X
      total_rift_minted := r.total_rift_minted + X
      reentrancy_guard := false
      reentrancy_guard_slot := 0 },
    { r with
      total_underlying_wrapped := r.total_underlying_wrapped + X - X
      total_rift_minted := r.total_rift_minted + X - X
      total_burned := r.total_burned + X
      total_volume_24h := r.total_volume_24h + X
      reentrancy_guard := false
      reentrancy_guard_slot := 0 }, ?_, rfl, ?_⟩
  · show (guardedRun (wrapBody (WrapEnv.mk v0 (v0 + X) 0 0) X 0) r slot1).1 = _
    rw [(guardedRun_cases _ r slot1).2.2 hg]
    unfold runClearedBody
    rw [hwrap]
  · have hunwrap := unwrapBody_zero_fee_run
      { r with
        total_underlying_wrapped := r.total_underlying_wrapped + X
        total_rift_minted := r.total_rift_minted + X
        reentrancy_guard := true
        reentrancy_guard_slot := slot2 }
      (v0 + X) u0 X hopen huf hX (Nat.le_add_left X v0) hu
      (by simp) (by simp) h3 h5 h4
    show (guardedRun (unwrapBody (UnwrapEnv.mk (v0 + X) v0 u0 (u0 + X) 0 0) X 0)
      _ slot2).1 = _
    rw [(guardedRun_cases _ _ slot2).2.2 rfl]
    unfold runClearedBody
    have hv0 : v0 + X - X = v0 := by omega
    rw [hv0] at hunwrap
    rw [hunwrap]

/-- Witness for C3: wrapping 1000 with zero fees from the default state
(fees set to 0) and unwrapping the 1000 minted tokens returns exactly
1000 underlying. -/
theorem C3_zero_fee_round_trip_witness :
    ∃ r1 r2,
      (wrap_tokens (WrapEnv.mk 7 (7 + 1000) 0 0) 1000 0
        { rDefault with wrap_fee_bps := 0, unwrap_fee_bps := 0 } 1).1
        = .ok (r1, 1000) ∧
      r1.reentrancy_guard = false ∧
      (unwrap_from_vault (UnwrapEnv.mk (7 + 1000) 7 3 (3 + 1000) 0 0) 1000 0 r1 2).1
        = .ok (r2, 1000) :=
  C3_zero_fee_round_trip
    { rDefault with wrap_fee_bps := 0, unwrap_fee_bps := 0 } 7 3 1000 1 2
    (by decide) (by decide) (by decide) (by decide) (by decide) (by decide)
    (by decide) (by decide) (by decide) (by decide) (by decide) (by decide)

/-- When no fresh sample exists — each positive-timestamp sample is
older than the 3600 s cutoff — the scan leaves the running total and
fresh count unchanged and counts every positive-timestamp sample as
stale. -/
theorem scanPrices_no_fresh (now : Int) (l : List PriceData) :
    ∀ (t c s : Nat),
    (∀ pd ∈ l, 0 < pd.timestamp →
      now - pd.timestamp < 2 ^ 63 ∧ 3600 < now - pd.timestamp) →
    s + l.length ≤ U64MAX →
    scanPrices now l (t, c, s) =
      .ok (t, c, s + l.countP (fun pd => decide (0 < pd.timestamp))) := by
  induction l with
  | nil =>
    intro t c s h hs
    simp [scanPrices]
  | cons pd rest ih =>
    intro t c s h hs
    simp only [List.length_cons] at hs
    by_cases hts : 0 < pd.timestamp
    · obtain ⟨hb, hstale⟩ := h pd (List.mem_cons_self pd rest) hts
      have hsub : i64chSub now pd.timestamp = .ok (now - pd.timestamp) := by
        unfold i64chSub
        rw [if_pos ⟨by omega, hb⟩]
      have hadd : chAdd s 1 = .ok (s + 1) := by
        unfold chAdd
        rw [if_pos (by omega : s + 1 ≤ U64MAX)]
      have hifts : pd.timestamp > 0 := hts
      simp only [scanPrices, if_pos hifts, hsub]
      rw [if_pos (by unfold MAX_ORACLE_AGE; omega :
        now - pd.timestamp > MAX_ORACLE_AGE)]
      rw [hadd]
      show scanPrices now rest (t, c, s + 1) = _
      rw [ih t c (s + 1) (fun q hq => h q (List.mem_cons_of_mem pd hq)) (by omega)]
      simp [List.countP_cons, hts]
      omega
    · have hifts : ¬ pd.timestamp > 0 := hts
      simp only [scanPrices, if_neg hifts]
      rw [ih t c s (fun q hq => h q (List.mem_cons_of_mem pd hq)) (by omega)]
      simp [List.countP_cons, hts]

/-- Claim C5 (amended): with zero fresh samples in the window, the
aggregator in normal mode fails with `OraclePriceStale` as soon as at
least one (stale) sample exists, regardless of how fresh the backing
ratio is; only with a fully empty window does normal mode fall back to
`backing_ratio` under the 24 h age bound; recovery mode always falls
back to `backing_ratio` under the 7 day bound. -/
theorem C5_stale_fallback (r : Rift) (now : Int)
    (hlen : r.oracle_prices.length ≤ U64MAX)
    (hfresh : ∀ pd ∈ r.oracle_prices, 0 < pd.timestamp →
      now - pd.timestamp < 2 ^ 63 ∧ 3600 < now - pd.timestamp)
    (hbr : 0 < r.backing_ratio)
    (hage : -(2 ^ 63) ≤ now - r.last_rebalance ∧ now - r.last_rebalance < 2 ^ 63) :
    ((∃ pd ∈ r.oracle_prices, 0 < pd.timestamp) →
      get_average_oracle_price_with_options r false now = .error .OraclePriceStale) ∧
    ((∀ pd ∈ r.oracle_prices, ¬ 0 < pd.timestamp) →
      get_average_oracle_price_with_options r false now =
        if now - r.last_rebalance ≤ 86400 then .ok r.backing_ratio
        else .error .BackingRatioTooStale) ∧
    (get_average_oracle_price_with_options r true now =
      if now - r.last_rebalance ≤ 604800 then .ok r.backing_ratio
      else .error .BackingRatioTooStale) := by
  have hscan := scanPrices_no_fresh now r.oracle_prices 0 0 0 hfresh
    (by omega)
  have hsubage : i64chSub now r.last_rebalance = .ok (now - r.last_rebalance) := by
    unfold i64chSub
    rw [if_pos hage]
  refine ⟨?_, ?_, ?_⟩
  · intro hex
    have hcnt : 0 < r.oracle_prices.countP (fun pd => decide (0 < pd.timestamp)) := by
      rw [List.countP_pos]
      obtain ⟨pd, hmem, hpd⟩ := hex
      exact ⟨pd, hmem, by simpa using hpd⟩
    unfold get_average_oracle_price_with_options
    rw [hscan]
    simp [hcnt]
  · intro hall
    have hcnt : r.oracle_prices.countP (fun pd => decide (0 < pd.timestamp)) = 0 := by
      rw [List.countP_eq_zero]
      intro pd hmem
      simpa using hall pd hmem
    unfold get_average_oracle_price_with_options
    rw [hscan, hcnt]
    simp [hbr, hsubage]
    split_ifs <;> first | rfl | omega
  · unfold get_average_oracle_price_with_options
    rw [hscan]
    simp [hbr, hsubage]
    split_ifs <;> first | rfl | omega

/-- Concrete rift whose 10-sample window holds only stale samples (age
9900 s at clock 10000) while `backing_ratio` was refreshed at 10000. -/
def rStale : Rift :=
  { rDefault with
    oracle_prices := List.replicate 10 (PriceData.mk 1000000 0 100)
    last_rebalance := 10000
    backing_ratio := 42 }

/-- Witness for C5 (amended): on `rStale` in normal mode the aggregator
fails with `OraclePriceStale`. -/
theorem C5_stale_fallback_witness :
    (∃ pd ∈ rStale.oracle_prices, 0 < pd.timestamp) ∧
    get_average_oracle_price_with_options rStale false 10000
      = .error .OraclePriceStale :=
  ⟨by decide,
   (C5_stale_fallback rStale 10000 (by decide) (by decide) (by decide)
     (by decide)).1 (by decide)⟩

/-- Counterexample to C5 as stated: all ten samples are stale (zero
fresh samples) and the backing ratio is fresh (age 0, well within 24 h),
yet normal mode does not return `backing_ratio` and does not fail with
`BackingRatioTooStale` — it fails with `OraclePriceStale` before ever
reaching the fallback. -/
theorem C5_counterexample :
    get_average_oracle_price_with_options rStale false 10000
      = .error .OraclePriceStale ∧
    (∀ pd ∈ rStale.oracle_prices, 0 < pd.timestamp →
      3600 < (10000 : Int) - pd.timestamp) ∧
    (10000 : Int) - rStale.last_rebalance ≤ 86400 ∧
    ¬ get_average_oracle_price_with_options rStale false 10000
        = .ok rStale.backing_ratio ∧
    ¬ get_average_oracle_price_with_options rStale false 10000
        = .error .BackingRatioTooStale := by
  decide

/-- A passing 10 percent gate with a positive aggregate bounds the price
change by 1000 bps. -/
theorem tenPctCheck_ok_elim {p avg : Nat} (h : tenPctCheck p avg = .ok ())
    (hpos : 0 < avg) :
    (if avg < p then p - avg else avg - p) * 10000 / avg ≤ 1000 := by
  simp only [tenPctCheck] at h
  repeat' (split at h <;> try exact Except.noConfusion h)
  all_goals simp_all [chSub_eq_ok, chMul_eq_ok, chDiv_eq_ok]
  all_goals (try (split_ifs at * <;>
    simp_all [chSub_eq_ok, chMul_eq_ok, chDiv_eq_ok]))

/-- A passing drift gate with a set baseline bounds the cumulative drift
by 3000 bps. -/
theorem driftCheck_ok_elim {p base : Nat} {ws : Int}
    (h : driftCheck p base ws = .ok ()) (hws : ws ≠ 0) (hb : 0 < base) :
    (if base < p then p - base else base - p) * 10000 / base ≤ 3000 := by
  simp only [driftCheck] at h
  repeat' (split at h <;> try exact Except.noConfusion h)
  all_goals simp_all [chSub_eq_ok, chMul_eq_ok, chDiv_eq_ok]
  all_goals (try (split_ifs at * <;>
    simp_all [chSub_eq_ok, chMul_eq_ok, chDiv_eq_ok]))

/-- A successful `add_price_data` advances the cursor modulo 10, keeps
the window length, and leaves the drift baseline untouched. -/
theorem add_price_data_ok_elim {r : Rift} {p c : Nat} {ts now : Int} {r2 : Rift}
    (h : add_price_data r p c ts now = .ok r2) :
    r2.price_index = (r.price_index + 1) % 10 ∧
    r2.oracle_prices.length = r.oracle_prices.length ∧
    r2.manual_oracle_base_price = r.manual_oracle_base_price ∧
    r2.manual_oracle_drift_window_start = r.manual_oracle_drift_window_start := by
  unfold add_price_data at h
  split_ifs at h
  simp only [Except.ok.injEq] at h
  subst h
  simp [List.length_set]

/-- Successful manual oracle updates passed every gate: the hourly rate
limit, the 10 percent cap against the recovery-mode aggregate, and — once
a baseline exists — the 3000 bps cumulative drift cap against that fixed
baseline; moreover they never re-anchor an existing baseline, and they
advance the oracle cursor modulo 10. -/
theorem update_manual_oracle_ok_elim {r : Rift} {now : Int} {p c : Nat}
    {r2 : Rift} (h : update_manual_oracle r now p c = .ok r2) :
    (0 < r.last_manual_oracle_update → 3600 ≤ now - r.last_manual_oracle_update) ∧
    (∃ avg, get_average_oracle_price_with_options r true now = .ok avg ∧
      (0 < avg → (if avg < p then p - avg else avg - p) * 10000 / avg ≤ 1000)) ∧
    (r.manual_oracle_drift_window_start ≠ 0 → 0 < r.manual_oracle_base_price →
      (if r.manual_oracle_base_price < p then p - r.manual_oracle_base_price
       else r.manual_oracle_base_price - p) * 10000 / r.manual_oracle_base_price
        ≤ 3000) ∧
    (r.manual_oracle_drift_window_start ≠ 0 →
      r2.manual_oracle_base_price = r.manual_oracle_base_price ∧
      r2.manual_oracle_drift_window_start = r.manual_oracle_drift_window_start) ∧
    r2.price_index = (r.price_index + 1) % 10 ∧
    r2.oracle_prices.length = r.oracle_prices.length := by
  simp only [update_manual_oracle] at h
  split at h
  · exact Except.noConfusion h
  next hrate =>
  split at h
  · exact Except.noConfusion h
  next avg havg =>
  split at h
  · exact Except.noConfusion h
  next u hten =>
  split at h
  · exact Except.noConfusion h
  next u2 hdrift =>
  split at h
  · exact Except.noConfusion h
  next hp =>
  split at h
  · exact Except.noConfusion h
  next hp2 =>
  split at h
  · exact Except.noConfusion h
  next m5 hm5 =>
  split at h
  · exact Except.noConfusion h
  next mc hmc =>
  split at h
  · exact Except.noConfusion h
  next hconf =>
  split at h
  · exact Except.noConfusion h
  next r2a hadd =>
  simp only [Except.ok.injEq] at h
  subst h
  obtain ⟨ha1, ha2, ha3, ha4⟩ := add_price_data_ok_elim hadd
  refine ⟨by push_neg at hrate; intro hl; omega,
    ⟨avg, havg, fun hpos => tenPctCheck_ok_elim (by cases u; exact hten) hpos⟩,
    fun hws hb => driftCheck_ok_elim (by cases u2; exact hdrift) hws hb,
    fun hws => ?_, ?_, ?_⟩
  · constructor
    · rw [show ({ r2a with last_manual_oracle_update := now } :
        Rift).manual_oracle_base_price = r2a.manual_oracle_base_price from rfl, ha3]
      simp [if_neg hws]
    · rw [show ({ r2a with last_manual_oracle_update := now } :
        Rift).manual_oracle_drift_window_start
          = r2a.manual_oracle_drift_window_start from rfl, ha4]
      simp [if_neg hws]
  · rw [show ({ r2a with last_manual_oracle_update := now } :
      Rift).price_index = r2a.price_index from rfl, ha1]
    split <;> rfl
  · rw [show ({ r2a with last_manual_oracle_update := now } :
      Rift).oracle_prices = r2a.oracle_prices from rfl, ha2]
    split <;> rfl

/-- Claim C9 (amended): `update_manual_oracle` is rate-limited to one
update per hour and rejects prices more than 10 percent away from the
current aggregate; the cumulative drift ceiling is a fixed 3000 bps
against a baseline captured at the first manual update and never
re-anchored — there is no per-7-day renewal of the allowance. -/
theorem C9_manual_oracle_checks :
    (∀ (r : Rift) (now : Int) (p c : Nat),
      0 < r.last_manual_oracle_update →
      now - r.last_manual_oracle_update < 3600 →
      update_manual_oracle r now p c = .error .OracleUpdateTooFrequent) ∧
    (∀ (r : Rift) (now : Int) (p c : Nat) (r2 : Rift),
      update_manual_oracle r now p c = .ok r2 →
      (0 < r.last_manual_oracle_update →
        3600 ≤ now - r.last_manual_oracle_update) ∧
      (∃ avg, get_average_oracle_price_with_options r true now = .ok avg ∧
        (0 < avg → (if avg < p then p - avg else avg - p) * 10000 / avg ≤ 1000)) ∧
      (r.manual_oracle_drift_window_start ≠ 0 → 0 < r.manual_oracle_base_price →
        (if r.manual_oracle_base_price < p then p - r.manual_oracle_base_price
         else r.manual_oracle_base_price - p) * 10000
          / r.manual_oracle_base_price ≤ 3000) ∧
      (r.manual_oracle_drift_window_start ≠ 0 →
        r2.manual_oracle_base_price = r.manual_oracle_base_price ∧
        r2.manual_oracle_drift_window_start
          = r.manual_oracle_drift_window_start)) := by
  constructor
  · intro r now p c h1 h2
    unfold update_manual_oracle
    rw [if_pos ⟨by omega, by omega⟩]
  · intro r now p c r2 h
    obtain ⟨h1, h2, h3, h4, h5, h6⟩ := update_manual_oracle_ok_elim h
    exact ⟨h1, h2, h3, h4⟩

/-- Concrete rift one hour short of its manual-oracle rate limit. -/
def rRate : Rift := { rDefault with last_manual_oracle_update := 50 }

/-- Witness for C9 (amended): a manual update 50 seconds after the
previous one is rejected with `OracleUpdateTooFrequent`. -/
theorem C9_manual_oracle_checks_witness :
    0 < rRate.last_manual_oracle_update ∧
    (100 : Int) - rRate.last_manual_oracle_update < 3600 ∧
    update_manual_oracle rRate 100 1000000 0
      = .error .OracleUpdateTooFrequent :=
  ⟨by decide, by decide,
   C9_manual_oracle_checks.1 rRate 100 1000000 0 (by decide) (by decide)⟩

/-- Concrete rift whose drift baseline of 1.0 was anchored three full
7-day windows ago, with the current aggregate (via the fresh backing
ratio) at 1.35. -/
def rDrift : Rift :=
  { rDefault with
    manual_oracle_base_price := 1000000
    manual_oracle_drift_window_start := 1000
    last_manual_oracle_update := 1000
    backing_ratio := 1350000
    last_rebalance := 1815400 }

/-- Counterexample to C9 as stated: three 7-day windows after the
baseline was anchored, an update priced exactly at the current aggregate
(0 percent jump, rate limit long since satisfied) is rejected with
`OracleCumulativeDriftTooLarge`, although its cumulative drift of 3500
bps is well inside a 30-percent-per-7-days allowance (9000 bps over the
elapsed windows): the ceiling is a fixed lifetime 3000 bps against a
baseline that never rolls. -/
theorem C9_counterexample :
    update_manual_oracle rDrift 1815400 1350000 0
      = .error .OracleCumulativeDriftTooLarge ∧
    (1815400 : Int) - rDrift.manual_oracle_drift_window_start = 3 * 604800 ∧
    (1350000 - rDrift.manual_oracle_base_price) * 10000
      / rDrift.manual_oracle_base_price = 3500 ∧
    3500 ≤ 3 * 3000 := by
  decide

/-- A successful automatic rebalance rewrites the backing ratio, the
rebalance stamp and the volume counters but never touches the oracle
window or its cursor. -/
theorem trigger_automatic_rebalance_ok_elim {r : Rift} {t now : Int} {r2 : Rift}
    (h : trigger_automatic_rebalance r t now = .ok r2) :
    r2.price_index = r.price_index ∧ r2.oracle_prices = r.oracle_prices := by
  simp only [trigger_automatic_rebalance] at h
  repeat' (split at h <;> try exact Except.noConfusion h)
  all_goals simp_all [chAdd_eq_ok]
  all_goals (subst h; simp)

/-- A successful rebalance body preserves the oracle window and cursor. -/
theorem triggerRebalanceBody_ok_elim {now : Int} {r r2 : Rift} {out : Nat}
    (h : triggerRebalanceBody now r = .ok (r2, out)) :
    r2.price_index = r.price_index ∧ r2.oracle_prices = r.oracle_prices := by
  simp only [triggerRebalanceBody] at h
  split at h
  · exact Except.noConfusion h
  next can hcan =>
  split at h
  · exact Except.noConfusion h
  next hcantrue =>
  split at h
  · exact Except.noConfusion h
  next rb hrb =>
  simp only [Except.ok.injEq, Prod.mk.injEq] at h
  obtain ⟨h1, h2⟩ := h
  subst h1
  exact trigger_automatic_rebalance_ok_elim hrb

/-- Claim C10: in every rift state reachable from creation, the oracle
write cursor is strictly below 10 and the window has exactly 10 slots,
so the write of `add_price_data` at `price_index` is always in bounds:
the cursor starts at 0 and every operation either preserves it or
advances it modulo 10. -/
theorem C10_price_index_in_bounds :
    ∀ r, Reachable r → r.price_index < 10 ∧ r.oracle_prices.length = 10 ∧
      r.price_index < r.oracle_prices.length := by
  intro r hr
  induction hr with
  | created now => simp [create_rift]
  | created_vanity now => simp [create_rift_with_vanity_pda, create_rift]
  | vaults_initialized r v f w hr ih => simpa using ih
  | wrapped r env a m slot r2 out hr hok ih =>
    obtain ⟨h1, h2, h3, h4, h5⟩ := wrap_tokens_ok_elim hok
    subst h5
    simpa using ih
  | unwrapped r env a m slot r2 out hr hok ih =>
    obtain ⟨h1, h2, h3, h4, h5, h6, h7, h8, h9⟩ := unwrap_from_vault_ok_elim hok
    subst h9
    simpa using ih
  | distributed r env a r2 pa ta hr hok ih =>
    obtain ⟨h1, h2, h3, h4, h5, h6, h7, h8⟩ := distribute_ok_elim hok
    subst h8
    simpa using ih
  | rebalanced r now slot r2 out hr hok ih =>
    obtain ⟨rb, hb, hr2⟩ := guardedRun_ok_elim hok
    obtain ⟨hp, ho⟩ := triggerRebalanceBody_ok_elim hb
    subst hr2
    simp at hp ho
    simpa [hp, ho] using ih
  | price_added r p c ts now r2 hr hok ih =>
    obtain ⟨h1, h2, h3, h4⟩ := add_price_data_ok_elim hok
    omega
  | manual_oracle_updated r now p c r2 hr hok ih =>
    obtain ⟨h1, h2, h3, h4, h5, h6⟩ := update_manual_oracle_ok_elim hok
    omega

/-- Witness for C10: the invariant at the creation state itself. -/
theorem C10_price_index_in_bounds_witness :
    (create_rift 0).price_index < 10 ∧
    (create_rift 0).oracle_prices.length = 10 ∧
    (create_rift 0).price_index < (create_rift 0).oracle_prices.length :=
  C10_price_index_in_bounds (create_rift 0) (Reachable.created 0)

end Rifts
